import Mathlib

/-!
Verification development for `nzcp/src/decentralised_identifier.rs`.

The Rust source resolves a `did:web` decentralized identifier to a P-256
verifying key.  We shallowly embed the source:

* Rust `&str` / `String` values become `Str := List Char`;
* byte sequences (`Vec<u8>`) become `Bytes := List Nat`;
* the external collaborators (the `did_web`/`serde_json` document fetch and
  parse, the `serde` structured decode of `ssi::did::Document`, and the
  `p256` curve-point validation) are parameters of the embedded functions,
  so every theorem quantifies over their behaviour;
* Rust panics (`Result::expect`, `GenericArray::from_slice` on a slice of
  the wrong length) are modelled by an explicit `panic` outcome in
  `RResult`, distinct from `Ok` and from the typed `Err` values.

Types owned by the external `ssi` crate (`DIDURL`, `VerificationMethod`,
`Document`, the JWK parameter variants) are embedded structurally from that
crate's definitions: derived `PartialEq` becomes the derived `DecidableEq`,
and `DIDURL::try_from(String)` becomes `DIDURL.fromString` below (split at
the first `#` into primary part and fragment; the primary part must start
with `did:`, then split off an optional `?query` and an optional `/path`).
-/

/-- Rust string slices, embedded as lists of characters. -/
abbrev Str : Type := List Char

/-- Rust byte vectors (`Vec<u8>`), embedded as lists of naturals. -/
abbrev Bytes : Type := List Nat

/-- Outcome of running a Rust function that returns `Result<α, ε>` but may
also panic: `ok`, a typed `err`, or a `panic` with its message. -/
inductive RResult (ε : Type) (α : Type) where
  | ok (a : α)
  | err (e : ε)
  | panic (msg : Str)
deriving DecidableEq

/-- `str::splitn(2, sep)`: the part before the first occurrence of `sep`,
and (when `sep` occurs) everything after that first occurrence. -/
def splitn2 (sep : Char) : Str → Str × Option Str
  | [] => ([], none)
  | c :: rest =>
    if c = sep then ([], some rest)
    else
      let r := splitn2 sep rest
      (c :: r.1, r.2)

/-- `str::split_at(i)` at the first occurrence of `sep` (as computed by
`str::find`): the part before it, and the suffix starting with `sep`
(empty when `sep` does not occur). -/
def splitAtChar (sep : Char) : Str → Str × Str
  | [] => ([], [])
  | c :: rest =>
    if c = sep then ([], c :: rest)
    else
      let r := splitAtChar sep rest
      (c :: r.1, r.2)

/-- `str::strip_prefix`: `some` of the suffix when the prefix matches. -/
def stripPre : Str → Str → Option Str
  | [], s => some s
  | _ :: _, [] => none
  | p :: ps, c :: cs => if p = c then stripPre ps cs else none

/-- `str::starts_with`. -/
def startsWith (p s : Str) : Bool :=
  (stripPre p s).isSome

/-- The literal `"did:web:"` prefix constant `DID_WEB` of the source. -/
def DID_WEB : Str := "did:web:".data

/-- `ssi::did::PrimaryDIDURL`: a DID URL without its fragment. -/
structure PrimaryDIDURL where
  did : Str
  path : Option Str
  query : Option Str
deriving DecidableEq

/-- `PrimaryDIDURL::try_from(String)` from the `ssi` crate: the string must
start with `"did:"`; then an optional `?`-query is split off, and an
optional `/`-path (kept with its leading slash). -/
def PrimaryDIDURL.fromString (s : Str) : Option PrimaryDIDURL :=
  if startsWith "did:".data s then
    let q := splitn2 '?' s
    let p := splitAtChar '/' q.1
    some ⟨p.1, if p.2 = [] then none else some p.2, q.2⟩
  else
    none

/-- `ssi::did::DIDURL` (derived `PartialEq` becomes derived equality). -/
structure DIDURL where
  did : Str
  path_abempty : Str
  query : Option Str
  fragment : Option Str
deriving DecidableEq

/-- `DIDURL::try_from(String)` (hence `DIDURL::from_str`) from the `ssi`
crate: split at the first `#` into primary part and fragment, parse the
primary part, and default the path to the empty string. -/
def DIDURL.fromString (s : Str) : Option DIDURL :=
  let f := splitn2 '#' s
  match PrimaryDIDURL.fromString f.1 with
  | some p => some ⟨p.did, p.path.getD [], p.query, f.2⟩
  | none => none

/-- `DecentralizedIdentifier<'a>`: only the `Web(domain)` variant exists. -/
inductive DecentralizedIdentifier where
  | Web (domain : Str)
deriving DecidableEq

/-- `DecentralizedIdentifier::did`: re-prepend the `did:web:` prefix. -/
def DecentralizedIdentifier.did : DecentralizedIdentifier → Str
  | .Web d => DID_WEB ++ d

/-- The `Display` rendering of an identifier (`write!(f, "{}", self.did())`). -/
def DecentralizedIdentifier.to_string (self : DecentralizedIdentifier) : Str :=
  self.did

/-- `DecentralizedIdentifierVisitor::visit_borrowed_str`: accept exactly the
strings with the `did:web:` prefix, keeping the suffix as the domain; any
other string fails with the custom "invalid DID" error. -/
def visit_borrowed_str (did : Str) : Except Str DecentralizedIdentifier :=
  match stripPre DID_WEB did with
  | some d => .ok (.Web d)
  | none => .error "invalid DID".data

/-- `DecentralizedIdentifierError` (derived `PartialEq, Eq`). -/
inductive DecentralizedIdentifierError where
  | ResolutionError (detail : Str)
  | EmptyDocument
  | MissingAssertionMethods
  | MissingAssertionMethod (key : Str)
  | MissingVerificationMethods
  | MissingVerificationMethod (key : Str)
  | NotJsonWebKey2020
  | MissingJWK
  | JWKNotEllipticCurve
  | JWKMissingX
  | JWKMissingY
  | JWKWrongCurve
  | InvalidJWK
deriving DecidableEq

/-- `ssi::jwk::ECParams`, restricted to the fields the source reads:
`curve`, `x_coordinate` and `y_coordinate` (`Base64urlUInt` byte vectors). -/
structure ECParams where
  curve : Option Str
  x_coordinate : Option Bytes
  y_coordinate : Option Bytes
deriving DecidableEq

/-- `ssi::jwk::Params`: the source only destructures the `EC` variant; the
payloads of the other variants are never read, so they are not carried. -/
inductive JWKParams where
  | EC (ec : ECParams)
  | RSA
  | Symmetric
  | OKP
deriving DecidableEq

/-- `ssi::jwk::JWK`, restricted to the `params` field the source reads. -/
structure JWK where
  params : JWKParams
deriving DecidableEq

/-- `ssi::did::VerificationMethodMap`, restricted to the fields the source
reads: `id`, `type_` and `public_key_jwk`. -/
structure VerificationMethodMap where
  id : Str
  type_ : Str
  public_key_jwk : Option JWK
deriving DecidableEq

/-- `ssi::did::VerificationMethod` (untagged: a bare DID URL reference, a
relative DID URL, or an inline map); derived `PartialEq` becomes the
derived equality, under which distinct variants are never equal. -/
inductive VerificationMethod where
  | DIDURL (url : DIDURL)
  | RelativeDIDURL (url : Str)
  | Map (map : VerificationMethodMap)
deriving DecidableEq

/-- `ssi::did::Document`, restricted to the fields the source reads:
`assertion_method` and `verification_method`, both optional sequences. -/
structure Document where
  assertion_method : Option (List VerificationMethod)
  verification_method : Option (List VerificationMethod)
deriving DecidableEq

/-- `ssi::did_resolve::ResolutionMetadata`, restricted to the `error` field
the source reads. -/
structure ResolutionMetadata where
  error : Option Str
deriving DecidableEq

/-- Untyped `serde_json::Value`. -/
inductive Json where
  | null
  | bool (b : Bool)
  | num (n : Int)
  | str (s : Str)
  | arr (elems : List Json)
  | obj (fields : List (Str × Json))

/-- Whether a JSON value is `Value::String(_)`. -/
def Json.isString : Json → Bool
  | .str _ => true
  | _ => false

/-- `Value::get_mut(key)` viewed as a read: the value under `key` when the
JSON value is an object containing it, `none` otherwise. -/
def jsonGet (key : Str) : Json → Option Json
  | .obj fields =>
    match fields.find? (fun f => f.1 = key) with
    | some f => some f.2
    | none => none
  | _ => none

/-- Replace the value under `key` in an object's field list. -/
def setField (key : Str) (v : Json) : List (Str × Json) → List (Str × Json)
  | [] => []
  | f :: rest =>
    if f.1 = key then (f.1, v) :: rest
    else f :: setField key v rest

/-- The in-place write through `Value::get_mut(key)`: replace the value
under `key` when present (no-op otherwise, matching `get_mut = None`). -/
def jsonSet (key : Str) (v : Json) : Json → Json
  | .obj fields => .obj (setField key v fields)
  | j => j

/-- The JSON key `"@context"` rewritten by the resolver workaround. -/
def contextKey : Str := "@context".data

/-- The canonical DID-core context URL the workaround writes. -/
def contextUrl : Str := "https://www.w3.org/ns/did/v1".data

/-- `DecentralizedIdentifier::resolve_document`, after the external fetch.
The fetch collaborator's output is the pair `(metadata, doc_data)`; the
external `serde_json::from_slice::<Option<Value>>` parse and the
`serde_json::from_value::<Document>` structured decode are the parameters
`parse` and `fromValue` (each returning the error's display text on
failure).  Mirrors the source: empty bytes parse to no document; a parse
failure is a `ResolutionError`; a string-valued `@context` is rewritten to
`contextUrl` and the document re-decoded (a decode failure is a
`ResolutionError`), any other `@context` shape yields no document; then a
metadata error wins, then a missing document is `EmptyDocument`. -/
def resolve_document (parse : Bytes → Except Str (Option Json))
    (fromValue : Json → Except Str Document)
    (metadata : ResolutionMetadata) (doc_data : Bytes) :
    Except DecentralizedIdentifierError Document :=
  let parsed : Except DecentralizedIdentifierError (Option Json) :=
    if doc_data.isEmpty then .ok none
    else
      match parse doc_data with
      | .ok doc => .ok doc
      | .error err => .error (.ResolutionError err)
  match parsed with
  | .error e => .error e
  | .ok doc_opt =>
    let transposed : Except DecentralizedIdentifierError (Option Document) :=
      match doc_opt with
      | none => .ok none
      | some doc =>
        match jsonGet contextKey doc with
        | some (Json.str _) =>
          match fromValue (jsonSet contextKey (Json.str contextUrl) doc) with
          | .ok d => .ok (some d)
          | .error err => .error (.ResolutionError err)
        | some _ => .ok none
        | none => .ok none
    match transposed with
    | .error e => .error e
    | .ok document =>
      match metadata.error with
      | some error => .error (.ResolutionError error)
      | none =>
        match document with
        | some document => .ok document
        | none => .error .EmptyDocument

/-- The absolute key `format!("{}#{}", self.did(), kid)`. -/
def absoluteKey (self : DecentralizedIdentifier) (kid : Str) : Str :=
  self.did ++ "#".data ++ kid

/-- The panic message of `.expect("invalid iss/kid DID")`. -/
def didPanicMsg : Str := "invalid iss/kid DID".data

/-- The panic message of `GenericArray::from_slice` on a slice whose length
is not the array length (P-256 field elements are 32 bytes). -/
def gaPanicMsg : Str := "GenericArray::from_slice: slice length mismatch".data

/-- `p256::EncodedPoint`: a SEC1-encoded curve point. -/
structure EncodedPoint where
  bytes : Bytes
deriving DecidableEq

/-- `EncodedPoint::from_affine_coordinates(x, y, false)`: the uncompressed
SEC1 encoding, tag byte `0x04` followed by the two coordinates. -/
def EncodedPoint.from_affine_coordinates (x y : Bytes) : EncodedPoint :=
  ⟨0x04 :: (x ++ y)⟩

/-- `p256::ecdsa::VerifyingKey`: a validated public-key point, compared by
its SEC1 encoding. -/
structure VerifyingKey where
  point : EncodedPoint
deriving DecidableEq

/-- `VerifyingKey::from_encoded_point`: the external `p256` curve
validation is the parameter `valid` (point on curve, acceptable encoding);
a point that fails validation is rejected with an opaque error. -/
def VerifyingKey.from_encoded_point (valid : EncodedPoint → Bool)
    (p : EncodedPoint) : Except Unit VerifyingKey :=
  if valid p then .ok ⟨p⟩ else .error ()

/-- The `find_map` closure over `verification_method`: the first inline
`Map` entry whose `id` equals the absolute key. -/
def findVerificationMethod (absolute_key : Str)
    (methods : List VerificationMethod) : Option VerificationMethodMap :=
  methods.findSome? fun method =>
    match method with
    | .Map map => if map.id = absolute_key then some map else none
    | _ => none

/-- Lines 150–197 of `resolve_verifying_key`, after the document has been
resolved.  Mirrors the source exactly: build the absolute key and
`DIDURL::from_str(..).expect(..)` it (a parse failure panics); require
`assertion_method` and membership of the bare `DIDURL` reference (under
derived equality); require `verification_method` and the first inline map
with matching id; require type `JsonWebKey2020`; require a present,
elliptic-curve JWK with curve `P-256` and both coordinates; pass each
coordinate through `GenericArray::from_slice` (which panics unless it has
exactly 32 bytes); build the uncompressed point and validate it into a
`VerifyingKey`, mapping a validation failure to `InvalidJWK`. -/
def verifying_key_from_document (valid : EncodedPoint → Bool)
    (self : DecentralizedIdentifier) (kid : Str) (document : Document) :
    RResult DecentralizedIdentifierError VerifyingKey :=
  let absolute_key := absoluteKey self kid
  match DIDURL.fromString absolute_key with
  | none => .panic didPanicMsg
  | some absolute_key_url =>
    match document.assertion_method with
    | none => .err .MissingAssertionMethods
    | some assertion_methods =>
      if VerificationMethod.DIDURL absolute_key_url ∈ assertion_methods then
        match document.verification_method with
        | none => .err .MissingVerificationMethods
        | some methods =>
          match findVerificationMethod absolute_key methods with
          | none => .err (.MissingVerificationMethod absolute_key)
          | some verification_method =>
            if verification_method.type_ ≠ "JsonWebKey2020".data then
              .err .NotJsonWebKey2020
            else
              match verification_method.public_key_jwk with
              | some jwk =>
                match jwk.params with
                | .EC ec =>
                  if ec.curve ≠ some "P-256".data then .err .JWKWrongCurve
                  else
                    match ec.x_coordinate with
                    | none => .err .JWKMissingX
                    | some x =>
                      match ec.y_coordinate with
                      | none => .err .JWKMissingY
                      | some y =>
                        if x.length = 32 then
                          if y.length = 32 then
                            let point := EncodedPoint.from_affine_coordinates x y
                            match VerifyingKey.from_encoded_point valid point with
                            | .ok verifying_key => .ok verifying_key
                            | .error _ => .err .InvalidJWK
                          else .panic gaPanicMsg
                        else .panic gaPanicMsg
                | _ => .err .JWKNotEllipticCurve
              | none => .err .MissingJWK
      else .err (.MissingAssertionMethod absolute_key)

/-- `DecentralizedIdentifier::resolve_verifying_key`: resolve the document
(propagating its errors via `?`), then extract the verifying key. -/
def resolve_verifying_key (parse : Bytes → Except Str (Option Json))
    (fromValue : Json → Except Str Document) (valid : EncodedPoint → Bool)
    (metadata : ResolutionMetadata) (doc_data : Bytes)
    (self : DecentralizedIdentifier) (kid : Str) :
    RResult DecentralizedIdentifierError VerifyingKey :=
  match resolve_document parse fromValue metadata doc_data with
  | .error e => .err e
  | .ok document => verifying_key_from_document valid self kid document

/-! ## Helper lemmas -/

theorem stripPre_append (p s : Str) : stripPre p (p ++ s) = some s := by
  induction p with
  | nil => rfl
  | cons c cs ih => simp [stripPre, ih]

theorem splitn2_append_of_notMem (sep : Char) (p s : Str) (h : sep ∉ p) :
    splitn2 sep (p ++ s) = (p ++ (splitn2 sep s).1, (splitn2 sep s).2) := by
  induction p with
  | nil => simp
  | cons c cs ih =>
    have hc : ¬(c = sep) := fun hcs => h (hcs ▸ List.mem_cons_self c cs)
    have hcs : sep ∉ cs := fun hm => h (List.mem_cons_of_mem c hm)
    simp [splitn2, hc, ih hcs]

theorem startsWith_did_DID_WEB (w : Str) :
    startsWith ['d', 'i', 'd', ':'] (DID_WEB ++ w) = true := by
  have h8 : DID_WEB = ['d', 'i', 'd', ':'] ++ "web:".data := by decide
  rw [h8, List.append_assoc]
  unfold startsWith
  rw [stripPre_append]
  rfl

/-- Every absolute key built by the source parses as a DID URL: it starts
with `did:web:`, hence with `did:`, and the rest of the parse never fails. -/
theorem didurl_fromString_absoluteKey (self : DecentralizedIdentifier)
    (kid : Str) : ∃ u, DIDURL.fromString (absoluteKey self kid) = some u := by
  cases self with
  | Web d =>
    have harr : absoluteKey (.Web d) kid = DID_WEB ++ (d ++ ('#' :: kid)) := by
      simp [absoluteKey, DecentralizedIdentifier.did]
    rw [harr]
    unfold DIDURL.fromString
    rw [splitn2_append_of_notMem '#' DID_WEB _ (by decide)]
    unfold PrimaryDIDURL.fromString
    simp [startsWith_did_DID_WEB]

/-! ## C10 -/

/-- C10: for every domain string `d`, parsing `"did:web:" ++ d` (via the
deserialization visitor) succeeds with the identifier `Web d`, and that
identifier's rendered string form is again `"did:web:" ++ d` (`DID_WEB`
is the literal `"did:web:"`): parse followed by `to_string` is the
identity on strings beginning with `did:web:`. -/
theorem C10_parse_to_string_roundtrip (d : Str) :
    visit_borrowed_str (DID_WEB ++ d) = .ok (.Web d)
    ∧ (DecentralizedIdentifier.Web d).to_string = DID_WEB ++ d := by
  refine ⟨?_, rfl⟩
  unfold visit_borrowed_str
  rw [stripPre_append]

/-! ## C3 -/

/-- C3 (amended): the absolute-key construction step never panics — for
every identifier and kid, `"<did>#<kid>"` parses as a DID URL (it always
starts with `did:`), so `verifying_key_from_document` never produces the
`.expect("invalid iss/kid DID")` panic.  (The blanket "always Ok or a
typed error" part of the claim fails at the later point-reconstruction
step, see the counterexample.) -/
theorem C3_no_panic_at_key_construction (self : DecentralizedIdentifier)
    (kid : Str) :
    (∃ u, DIDURL.fromString (absoluteKey self kid) = some u)
    ∧ ∀ (valid : EncodedPoint → Bool) (document : Document),
        verifying_key_from_document valid self kid document
          ≠ RResult.panic didPanicMsg := by
  obtain ⟨u, hu⟩ := didurl_fromString_absoluteKey self kid
  refine ⟨⟨u, hu⟩, ?_⟩
  intro valid document h
  simp only [verifying_key_from_document, hu] at h
  repeat' split at h
  all_goals simp_all [didPanicMsg, gaPanicMsg]

/-- A concrete verification-method map whose JWK carries a 31-byte x
coordinate (one byte short of the P-256 field width). -/
def shortXMap : VerificationMethodMap :=
  ⟨absoluteKey (.Web "example.nz".data) "key-2".data, "JsonWebKey2020".data,
   some ⟨.EC ⟨some "P-256".data, some (List.replicate 31 1),
              some (List.replicate 32 2)⟩⟩⟩

/-- The parsed DID URL of `did:web:example.nz#key-2`. -/
def shortXUrl : DIDURL :=
  ⟨"did:web:example.nz".data, [], none, some "key-2".data⟩

/-- A concrete document authorizing `did:web:example.nz#key-2` and carrying
`shortXMap` as its key material. -/
def shortXDoc : Document :=
  ⟨some [.DIDURL shortXUrl], some [.Map shortXMap]⟩

/-- C3 (counterexample): with the issuer `did:web:example.nz`, kid `key-2`,
and a fetched document whose matching JWK has a 31-byte x coordinate, the
call reaches `GenericArray::from_slice` and panics — it returns neither
`Ok` nor a typed `DecentralizedIdentifierError`, refuting the blanket
"always Ok or a typed error" reading of the claim. -/
theorem C3_counterexample_panic :
    resolve_verifying_key
      (fun _ => Except.ok (some (Json.obj [(contextKey, Json.str contextUrl)])))
      (fun _ => Except.ok shortXDoc) (fun _ => true) ⟨none⟩ [123]
      (.Web "example.nz".data) "key-2".data = .panic gaPanicMsg := by
  rfl

/-! ## C2 -/

/-- A concrete verification-method map whose JWK carries a 33-byte y
coordinate (one byte beyond the P-256 field width). -/
def longYMap : VerificationMethodMap :=
  ⟨absoluteKey (.Web "issuer.example".data) "key-1".data, "JsonWebKey2020".data,
   some ⟨.EC ⟨some "P-256".data, some (List.replicate 32 3),
              some (List.replicate 33 4)⟩⟩⟩

/-- The parsed DID URL of `did:web:issuer.example#key-1`. -/
def longYUrl : DIDURL :=
  ⟨"did:web:issuer.example".data, [], none, some "key-1".data⟩

/-- A concrete document authorizing `did:web:issuer.example#key-1` and
carrying `longYMap` as its key material. -/
def longYDoc : Document :=
  ⟨some [.DIDURL longYUrl], some [.Map longYMap]⟩

/-- C2: a coordinate of the wrong fixed width does NOT produce
`InvalidJWK` — the evaluation reaches `GenericArray::from_slice(&y.0)`
with a 33-byte slice and panics, aborting instead of returning a typed
error to the caller (this holds for every curve validator, here the one
accepting all points). -/
theorem C2_wrong_width_panics :
    resolve_verifying_key
      (fun _ => Except.ok (some (Json.obj [(contextKey, Json.str contextUrl)])))
      (fun _ => Except.ok longYDoc) (fun _ => true) ⟨none⟩ [7]
      (.Web "issuer.example".data) "key-1".data = .panic gaPanicMsg := by
  rfl

/-! ## C9 -/

/-- C9: when the fetch returns empty bytes and the metadata carries no
error, resolution fails with `EmptyDocument`; the statement holds for
every JSON parser `parse`, so no decoding of the empty byte sequence is
ever consulted. -/
theorem C9_empty_bytes_empty_document
    (parse : Bytes → Except Str (Option Json))
    (fromValue : Json → Except Str Document) (valid : EncodedPoint → Bool)
    (metadata : ResolutionMetadata) (self : DecentralizedIdentifier)
    (kid : Str) (he : metadata.error = none) :
    resolve_verifying_key parse fromValue valid metadata [] self kid
      = .err .EmptyDocument := by
  unfold resolve_verifying_key resolve_document
  simp [he]

/-- C9 (witness): a concrete run with empty bytes, no metadata error, and
a parser that would reject anything it is given. -/
theorem C9_witness :
    resolve_verifying_key (fun _ => Except.error "unreachable".data)
      (fun _ => Except.error "unreachable".data) (fun _ => false) ⟨none⟩ []
      (.Web "example.com".data) "key-1".data = .err .EmptyDocument :=
  C9_empty_bytes_empty_document _ _ _ _ _ _ rfl

/-! ## C5 -/

/-- C5: when the fetched bytes are non-empty but fail to parse as JSON,
`resolve_document` returns `ResolutionError` wrapping the parse-failure
text, for every metadata value — the parse error is raised before the
metadata error is consulted, so a simultaneously-set metadata error string
(when different) is never the one reported. -/
theorem C5_parse_error_precedence
    (parse : Bytes → Except Str (Option Json))
    (fromValue : Json → Except Str Document) (metadata : ResolutionMetadata)
    (doc_data : Bytes) (msg : Str) (hne : doc_data ≠ [])
    (hp : parse doc_data = .error msg) :
    resolve_document parse fromValue metadata doc_data
      = .error (.ResolutionError msg)
    ∧ ∀ e, metadata.error = some e → e ≠ msg →
        resolve_document parse fromValue metadata doc_data
          ≠ .error (.ResolutionError e) := by
  have h1 : resolve_document parse fromValue metadata doc_data
      = .error (.ResolutionError msg) := by
    unfold resolve_document
    cases doc_data with
    | nil => exact absurd rfl hne
    | cons b bs => simp [hp]
  refine ⟨h1, ?_⟩
  intro e _ hdiff hcontra
  rw [h1] at hcontra
  simp only [Except.error.injEq, DecentralizedIdentifierError.ResolutionError.injEq]
    at hcontra
  exact hdiff hcontra.symm

/-- C5 (witness): a concrete fetch result whose bytes are non-empty and
malformed while the metadata also carries a (different) error string; the
reported error is the parse failure, not the metadata string. -/
theorem C5_witness :
    resolve_document (fun _ => Except.error "expected value at line 1".data)
      (fun _ => Except.error "unused".data) ⟨some "registry timeout".data⟩ [0x7b]
      = .error (.ResolutionError "expected value at line 1".data)
    ∧ ∀ e, (ResolutionMetadata.mk (some "registry timeout".data)).error = some e →
        e ≠ "expected value at line 1".data →
        resolve_document (fun _ => Except.error "expected value at line 1".data)
          (fun _ => Except.error "unused".data) ⟨some "registry timeout".data⟩ [0x7b]
          ≠ .error (.ResolutionError e) :=
  C5_parse_error_precedence _ _ _ _ _ (by simp) rfl

/-! ## C4 -/

/-- C4: when the fetched bytes are non-empty, parse to a JSON value with a
string-valued `@context`, and the rewritten value re-deserializes
successfully into a structured document, a metadata error string still
makes `resolve_verifying_key` fail with `ResolutionError` carrying exactly
that string — no verifying key is produced from the partial document. -/
theorem C4_metadata_error_wins
    (parse : Bytes → Except Str (Option Json))
    (fromValue : Json → Except Str Document) (valid : EncodedPoint → Bool)
    (metadata : ResolutionMetadata) (doc_data : Bytes)
    (self : DecentralizedIdentifier) (kid : Str) (j : Json) (s : Str)
    (d : Document) (e : Str) (hne : doc_data ≠ [])
    (hp : parse doc_data = .ok (some j))
    (hctx : jsonGet contextKey j = some (Json.str s))
    (hfv : fromValue (jsonSet contextKey (Json.str contextUrl) j) = .ok d)
    (he : metadata.error = some e) :
    resolve_verifying_key parse fromValue valid metadata doc_data self kid
      = .err (.ResolutionError e) := by
  unfold resolve_verifying_key resolve_document
  cases doc_data with
  | nil => exact absurd rfl hne
  | cons b bs => simp [hp, hctx, hfv, he]

/-- C4 (witness): a concrete fetch result with non-empty bytes, a
successfully parsed and re-deserialized document, and metadata error
`"not found"`; resolution reports exactly that string. -/
theorem C4_witness :
    resolve_verifying_key
      (fun _ => Except.ok (some (Json.obj [(contextKey, Json.str "https://w3id.org/did/v1".data)])))
      (fun _ => Except.ok ⟨some [], some []⟩) (fun _ => true)
      ⟨some "not found".data⟩ [0x7b] (.Web "example.com".data) "key-1".data
      = .err (.ResolutionError "not found".data) :=
  C4_metadata_error_wins _ _ _ _ _ _ _
    (Json.obj [(contextKey, Json.str "https://w3id.org/did/v1".data)])
    "https://w3id.org/did/v1".data ⟨some [], some []⟩ _
    (by simp) rfl rfl rfl rfl

/-! ## C6 -/

/-- C6: context normalization.  When the parsed JSON value's `@context`
field is absent or not a plain string, the structured decode is skipped
and the document is treated as absent — resolution degrades to the
metadata-error or empty-document outcome, never to a structured-decode
error.  When `@context` is a string, its value is rewritten to
`https://www.w3.org/ns/did/v1` before the structured re-deserialization,
whose successful result is returned (absent a metadata error). -/
theorem C6_context_normalization
    (parse : Bytes → Except Str (Option Json))
    (fromValue : Json → Except Str Document) (metadata : ResolutionMetadata)
    (doc_data : Bytes) (j : Json) (hne : doc_data ≠ [])
    (hp : parse doc_data = .ok (some j)) :
    ((jsonGet contextKey j = none ∨
        ∃ v, jsonGet contextKey j = some v ∧ v.isString = false) →
      resolve_document parse fromValue metadata doc_data
        = match metadata.error with
          | some e => .error (.ResolutionError e)
          | none => .error .EmptyDocument)
    ∧ (∀ s d, jsonGet contextKey j = some (Json.str s) → metadata.error = none →
        fromValue (jsonSet contextKey (Json.str contextUrl) j) = .ok d →
        resolve_document parse fromValue metadata doc_data = .ok d) := by
  constructor
  · intro habs
    unfold resolve_document
    cases doc_data with
    | nil => exact absurd rfl hne
    | cons b bs =>
      rcases habs with hnone | ⟨v, hv, hvs⟩
      · cases hm : metadata.error <;> simp [hp, hnone, hm]
      · cases v <;> simp_all [Json.isString]
  · intro s d hctx hmeta hfv
    unfold resolve_document
    cases doc_data with
    | nil => exact absurd rfl hne
    | cons b bs => simp [hp, hctx, hmeta, hfv]

/-- C6 (witness): concrete runs — an `@context` holding an array degrades
to `EmptyDocument` (for a structured decoder that would reject anything),
and a string `@context` is rewritten to the canonical URL before the
structured decode, whose result is returned. -/
theorem C6_witness :
    ((jsonGet contextKey (Json.obj [(contextKey, Json.arr [])]) = none ∨
        ∃ v, jsonGet contextKey (Json.obj [(contextKey, Json.arr [])]) = some v ∧
          v.isString = false) →
      resolve_document (fun _ => Except.ok (some (Json.obj [(contextKey, Json.arr [])])))
        (fun _ => Except.error "rejects everything".data) ⟨none⟩ [0x7b]
        = match (ResolutionMetadata.mk none).error with
          | some e => .error (.ResolutionError e)
          | none => .error .EmptyDocument)
    ∧ (∀ s d, jsonGet contextKey (Json.obj [(contextKey, Json.arr [])]) = some (Json.str s) →
        (ResolutionMetadata.mk none).error = none →
        (fun _ => (Except.error "rejects everything".data : Except Str Document))
            (jsonSet contextKey (Json.str contextUrl) (Json.obj [(contextKey, Json.arr [])])) = .ok d →
        resolve_document (fun _ => Except.ok (some (Json.obj [(contextKey, Json.arr [])])))
          (fun _ => Except.error "rejects everything".data) ⟨none⟩ [0x7b] = .ok d) :=
  C6_context_normalization _ _ _ _ _ (by simp) rfl

/-! ## C1 -/

/-- C1 (counterexample): a document whose `assertionMethod` holds an inline
map entry with `id` equal to the absolute key.  The claim predicts the
authorization check succeeds; the code compares entries against
`VerificationMethod::DIDURL(absolute_key_url)` under derived equality, an
inline `Map` entry never equals a `DIDURL` entry, and the call fails with
`MissingAssertionMethod` even though the matching key material is right
there in `verificationMethod`. -/
def inlineOnlyMap : VerificationMethodMap :=
  ⟨absoluteKey (.Web "example.com".data) "key-1".data, "JsonWebKey2020".data,
   some ⟨.EC ⟨some "P-256".data, some (List.replicate 32 5),
              some (List.replicate 32 6)⟩⟩⟩

/-- A document whose only `assertionMethod` entry is the inline map
`inlineOnlyMap` (no bare reference), with matching key material. -/
def inlineOnlyDoc : Document :=
  ⟨some [.Map inlineOnlyMap], some [.Map inlineOnlyMap]⟩

/-- C1 (counterexample): the assertionMethod sequence of `inlineOnlyDoc`
contains an inline map entry whose id equals the absolute key, yet
`resolve_verifying_key` (with a validator accepting every point) fails
with `MissingAssertionMethod` instead of succeeding. -/
theorem C1_counterexample_inline_map :
    inlineOnlyDoc.assertion_method = some [.Map inlineOnlyMap]
    ∧ inlineOnlyMap.id
        = absoluteKey (.Web "example.com".data) "key-1".data
    ∧ resolve_verifying_key
        (fun _ => Except.ok (some (Json.obj [(contextKey, Json.str contextUrl)])))
        (fun _ => Except.ok inlineOnlyDoc) (fun _ => true) ⟨none⟩ [123]
        (.Web "example.com".data) "key-1".data
      = .err (.MissingAssertionMethod
          (absoluteKey (.Web "example.com".data) "key-1".data)) :=
  ⟨rfl, rfl, rfl⟩

/-- C1 (amended): for a resolved document with a present `assertionMethod`
sequence, the call fails with `MissingAssertionMethod("<did>#<kid>")`
exactly when the sequence does NOT contain the bare reference entry equal
(under the `ssi` crate's derived equality) to the parsed absolute key;
an inline map entry whose id equals the absolute key does not satisfy the
check. -/
theorem C1_assertion_check_bare_reference_only
    (parse : Bytes → Except Str (Option Json))
    (fromValue : Json → Except Str Document) (valid : EncodedPoint → Bool)
    (metadata : ResolutionMetadata) (doc_data : Bytes)
    (self : DecentralizedIdentifier) (kid : Str) (document : Document)
    (ams : List VerificationMethod) (u : DIDURL)
    (hdoc : resolve_document parse fromValue metadata doc_data = .ok document)
    (ham : document.assertion_method = some ams)
    (hu : DIDURL.fromString (absoluteKey self kid) = some u) :
    (resolve_verifying_key parse fromValue valid metadata doc_data self kid
        = .err (.MissingAssertionMethod (absoluteKey self kid)))
      ↔ VerificationMethod.DIDURL u ∉ ams := by
  unfold resolve_verifying_key
  rw [hdoc]
  simp only [verifying_key_from_document, hu, ham]
  by_cases hmem : VerificationMethod.DIDURL u ∈ ams
  · simp only [hmem, if_true, not_true, iff_false]
    intro h
    repeat' split at h
    all_goals simp_all
  · simp [hmem]

/-- C1 (witness for the amended claim): with a resolved document whose
`assertionMethod` is the empty sequence, the call fails with
`MissingAssertionMethod` iff the bare reference is absent — trivially so
here. -/
theorem C1_witness :
    (resolve_verifying_key
        (fun _ => Except.ok (some (Json.obj [(contextKey, Json.str contextUrl)])))
        (fun _ => Except.ok ⟨some [], none⟩) (fun _ => true) ⟨none⟩ [9]
        (.Web "example.com".data) "key-1".data
      = .err (.MissingAssertionMethod
          (absoluteKey (.Web "example.com".data) "key-1".data)))
    ↔ VerificationMethod.DIDURL
        ⟨"did:web:example.com".data, [], none, some "key-1".data⟩
        ∉ ([] : List VerificationMethod) :=
  C1_assertion_check_bare_reference_only _ _ _ _ _ _ _ ⟨some [], none⟩ []
    ⟨"did:web:example.com".data, [], none, some "key-1".data⟩ rfl rfl rfl

/-! ## C7 -/

/-- C7: when the resolved document passes the assertionMethod check and the
selected verificationMethod entry is a `JsonWebKey2020` whose JWK is an
elliptic-curve key on `P-256` with present 32-byte coordinates forming a
point the curve validator accepts, `resolve_verifying_key` returns `Ok` of
exactly the key whose SEC1 encoding is the uncompressed point built from
those coordinates. -/
theorem C7_valid_jwk_key
    (parse : Bytes → Except Str (Option Json))
    (fromValue : Json → Except Str Document) (valid : EncodedPoint → Bool)
    (metadata : ResolutionMetadata) (doc_data : Bytes)
    (self : DecentralizedIdentifier) (kid : Str) (document : Document)
    (ams methods : List VerificationMethod) (u : DIDURL)
    (vm : VerificationMethodMap) (jwk : JWK) (ec : ECParams) (x y : Bytes)
    (hdoc : resolve_document parse fromValue metadata doc_data = .ok document)
    (hu : DIDURL.fromString (absoluteKey self kid) = some u)
    (ham : document.assertion_method = some ams)
    (hmem : VerificationMethod.DIDURL u ∈ ams)
    (hvm : document.verification_method = some methods)
    (hfind : findVerificationMethod (absoluteKey self kid) methods = some vm)
    (htype : vm.type_ = "JsonWebKey2020".data)
    (hjwk : vm.public_key_jwk = some jwk)
    (hec : jwk.params = .EC ec)
    (hcrv : ec.curve = some "P-256".data)
    (hx : ec.x_coordinate = some x) (hy : ec.y_coordinate = some y)
    (hxl : x.length = 32) (hyl : y.length = 32)
    (hvalid : valid (EncodedPoint.from_affine_coordinates x y) = true) :
    resolve_verifying_key parse fromValue valid metadata doc_data self kid
      = .ok ⟨EncodedPoint.from_affine_coordinates x y⟩ := by
  unfold resolve_verifying_key
  rw [hdoc]
  simp [verifying_key_from_document, hu, ham, hmem, hvm, hfind, htype, hjwk,
    hec, hcrv, hx, hy, hxl, hyl, VerifyingKey.from_encoded_point, hvalid]

/-- The coordinates of the concrete C7 witness JWK. -/
def goodX : Bytes := List.replicate 32 9

/-- The y coordinate of the concrete C7 witness JWK. -/
def goodY : Bytes := List.replicate 32 10

/-- A concrete well-formed `JsonWebKey2020` verification-method map. -/
def goodMap : VerificationMethodMap :=
  ⟨absoluteKey (.Web "example.com".data) "key-7".data, "JsonWebKey2020".data,
   some ⟨.EC ⟨some "P-256".data, some goodX, some goodY⟩⟩⟩

/-- The parsed DID URL of `did:web:example.com#key-7`. -/
def goodUrl : DIDURL :=
  ⟨"did:web:example.com".data, [], none, some "key-7".data⟩

/-- A concrete document authorizing and carrying `goodMap`. -/
def goodDoc : Document :=
  ⟨some [.DIDURL goodUrl], some [.Map goodMap]⟩

/-- C7 (witness): a concrete well-formed resolution run (with a validator
accepting the built point) returns the key built from the coordinates. -/
theorem C7_witness :
    resolve_verifying_key
      (fun _ => Except.ok (some (Json.obj [(contextKey, Json.str contextUrl)])))
      (fun _ => Except.ok goodDoc) (fun _ => true) ⟨none⟩ [1]
      (.Web "example.com".data) "key-7".data
      = .ok ⟨EncodedPoint.from_affine_coordinates goodX goodY⟩ :=
  C7_valid_jwk_key _ _ _ _ _ _ _ goodDoc _ _ goodUrl goodMap _ _ goodX goodY
    rfl rfl rfl (by decide) rfl rfl rfl rfl rfl rfl rfl rfl rfl rfl rfl

/-! ## C8 -/

/-- C8: for a selected verification-method entry of type `JsonWebKey2020`,
the JWK stage fails with `MissingJWK` when the JWK is absent; with
`JWKNotEllipticCurve` when present but not the elliptic-curve variant;
with `JWKWrongCurve` when elliptic-curve but the curve name is not
`P-256` (including absent, since `ec.curve.as_deref() != Some("P-256")`
holds for `None`); with `JWKMissingX` when the curve is right but x is
absent; and with `JWKMissingY` when x is present but y is absent — each
case's preconditions record that all earlier checks passed, capturing the
order of the checks. -/
theorem C8_jwk_check_order
    (parse : Bytes → Except Str (Option Json))
    (fromValue : Json → Except Str Document) (valid : EncodedPoint → Bool)
    (metadata : ResolutionMetadata) (doc_data : Bytes)
    (self : DecentralizedIdentifier) (kid : Str) (document : Document)
    (ams methods : List VerificationMethod) (u : DIDURL)
    (vm : VerificationMethodMap)
    (hdoc : resolve_document parse fromValue metadata doc_data = .ok document)
    (hu : DIDURL.fromString (absoluteKey self kid) = some u)
    (ham : document.assertion_method = some ams)
    (hmem : VerificationMethod.DIDURL u ∈ ams)
    (hvm : document.verification_method = some methods)
    (hfind : findVerificationMethod (absoluteKey self kid) methods = some vm)
    (htype : vm.type_ = "JsonWebKey2020".data) :
    (vm.public_key_jwk = none →
      resolve_verifying_key parse fromValue valid metadata doc_data self kid
        = .err .MissingJWK)
    ∧ (∀ jwk, vm.public_key_jwk = some jwk → (∀ ec, jwk.params ≠ .EC ec) →
      resolve_verifying_key parse fromValue valid metadata doc_data self kid
        = .err .JWKNotEllipticCurve)
    ∧ (∀ jwk ec, vm.public_key_jwk = some jwk → jwk.params = .EC ec →
      ec.curve ≠ some "P-256".data →
      resolve_verifying_key parse fromValue valid metadata doc_data self kid
        = .err .JWKWrongCurve)
    ∧ (∀ jwk ec, vm.public_key_jwk = some jwk → jwk.params = .EC ec →
      ec.curve = some "P-256".data → ec.x_coordinate = none →
      resolve_verifying_key parse fromValue valid metadata doc_data self kid
        = .err .JWKMissingX)
    ∧ (∀ jwk ec x, vm.public_key_jwk = some jwk → jwk.params = .EC ec →
      ec.curve = some "P-256".data → ec.x_coordinate = some x →
      ec.y_coordinate = none →
      resolve_verifying_key parse fromValue valid metadata doc_data self kid
        = .err .JWKMissingY) := by
  refine ⟨?_, ?_, ?_, ?_, ?_⟩
  · intro hnone
    unfold resolve_verifying_key
    rw [hdoc]
    simp [verifying_key_from_document, hu, ham, hmem, hvm, hfind, htype, hnone]
  · intro jwk hjwk hne
    unfold resolve_verifying_key
    rw [hdoc]
    cases hp : jwk.params with
    | EC ec => exact absurd hp (hne ec)
    | RSA =>
      simp [verifying_key_from_document, hu, ham, hmem, hvm, hfind, htype,
        hjwk, hp]
    | Symmetric =>
      simp [verifying_key_from_document, hu, ham, hmem, hvm, hfind, htype,
        hjwk, hp]
    | OKP =>
      simp [verifying_key_from_document, hu, ham, hmem, hvm, hfind, htype,
        hjwk, hp]
  · intro jwk ec hjwk hp hcrv
    unfold resolve_verifying_key
    rw [hdoc]
    simp [verifying_key_from_document, hu, ham, hmem, hvm, hfind, htype,
      hjwk, hp, hcrv]
  · intro jwk ec hjwk hp hcrv hx
    unfold resolve_verifying_key
    rw [hdoc]
    simp [verifying_key_from_document, hu, ham, hmem, hvm, hfind, htype,
      hjwk, hp, hcrv, hx]
  · intro jwk ec x hjwk hp hcrv hx hy
    unfold resolve_verifying_key
    rw [hdoc]
    simp [verifying_key_from_document, hu, ham, hmem, hvm, hfind, htype,
      hjwk, hp, hcrv, hx, hy]

/-- A concrete `JsonWebKey2020` verification-method map with no JWK. -/
def noJwkMap : VerificationMethodMap :=
  ⟨absoluteKey (.Web "example.org".data) "k".data, "JsonWebKey2020".data, none⟩

/-- The parsed DID URL of `did:web:example.org#k`. -/
def noJwkUrl : DIDURL :=
  ⟨"did:web:example.org".data, [], none, some "k".data⟩

/-- A concrete document authorizing and carrying `noJwkMap`. -/
def noJwkDoc : Document :=
  ⟨some [.DIDURL noJwkUrl], some [.Map noJwkMap]⟩

/-- C8 (witness): a concrete run in which the selected `JsonWebKey2020`
entry carries no `publicKeyJwk` fails with `MissingJWK`. -/
theorem C8_witness :
    resolve_verifying_key
      (fun _ => Except.ok (some (Json.obj [(contextKey, Json.str contextUrl)])))
      (fun _ => Except.ok noJwkDoc) (fun _ => true) ⟨none⟩ [2]
      (.Web "example.org".data) "k".data = .err .MissingJWK :=
  (C8_jwk_check_order
    (fun _ => Except.ok (some (Json.obj [(contextKey, Json.str contextUrl)])))
    (fun _ => Except.ok noJwkDoc) (fun _ => true) ⟨none⟩ [2]
    (.Web "example.org".data) "k".data noJwkDoc [.DIDURL noJwkUrl]
    [.Map noJwkMap] noJwkUrl noJwkMap
    rfl rfl rfl (by decide) rfl rfl rfl).1 rfl
